import Mathlib

/-!
Shallow Lean 4 embedding of the asteroid-impact core of the repository:
`utils/calculations.py`, `models/asteroid.py`, `models/impact_physics.py`
and `models/mitigation.py`.  Python floats are modelled by `ℝ`; Python
`math.sqrt` / `math.log` / `math.log10` by `Real.sqrt` / `Real.log` /
`Real.logb 10`; `x ** e` with fractional exponent by `Real.rpow`.
Faults that a Python run would raise on the modelled paths
(`ZeroDivisionError`, the unbound local `blast_radius` in
`summarize_regional_effects`) are surfaced as `Option.none`; the
`math.log` domain error of the laser-ablation model is captured by an
explicit domain predicate.  String formatting of numbers inside labels is
abstracted to carrying the band tag together with the numeric value.
-/

namespace NasaCore

noncomputable section

open Real Classical

/-! ## utils/calculations.py -/

/-- `calculations.kinetic_energy_joules`: `0.5 * mass * velocity ** 2`. -/
def kinetic_energy_joules (mass velocity : ℝ) : ℝ := 0.5 * mass * velocity ^ 2

/-- `calculations.tnt_equivalent`: `energy_joules / 4.184e15`
(the comment there documents 1 megaton = 4.184e15 J). -/
def tnt_equivalent (energy_joules : ℝ) : ℝ := energy_joules / 4.184e15

/-! ## models/asteroid.py -/

/-- Degrees to radians, as `np.radians` / `math.radians`. -/
def radians (x : ℝ) : ℝ := x * π / 180

/-- The stored fields of an `Asteroid` instance. -/
structure Asteroid where
  diameter : ℝ
  velocity : ℝ
  density : ℝ
  angle : ℝ

/-- `Asteroid.DENSITY_TYPES["rocky"]`, the default density. -/
def DENSITY_ROCKY : ℝ := 3000

/-- `Asteroid.__init__` on the path without `type_name`.
Python `density or 3000` and `angle or 45` replace a falsy argument
(`None` or `0`) by the default; any other value, valid or not, is stored
unchanged.  No validation of diameter, velocity, density or angle is
performed anywhere in the constructor. -/
def Asteroid.init (diameter velocity : ℝ) (density angle : Option ℝ) : Asteroid :=
  { diameter := diameter
    velocity := velocity
    density := match density with
      | none => DENSITY_ROCKY
      | some d => if d = 0 then DENSITY_ROCKY else d
    angle := match angle with
      | none => 45
      | some a => if a = 0 then 45 else a }

/-- `Asteroid.mass` (guard `if not self.diameter: return 0` included). -/
def Asteroid.mass (a : Asteroid) : ℝ :=
  if a.diameter = 0 then 0 else 4 / 3 * π * (a.diameter / 2) ^ 3 * a.density

/-- `Asteroid.kinetic_energy` (guard `if not self.velocity: return 0`). -/
def Asteroid.kinetic_energy (a : Asteroid) : ℝ :=
  if a.velocity = 0 then 0 else kinetic_energy_joules a.mass (a.velocity * 1000)

/-- `Asteroid.impact_energy`: kinetic energy times `cos(angle)^2`. -/
def Asteroid.impact_energy (a : Asteroid) : ℝ :=
  a.kinetic_energy * Real.cos (radians a.angle) ^ 2

/-- `Asteroid.tnt_equivalent`: impact energy in megatons via
`calculations.tnt_equivalent`. -/
def Asteroid.tnt_megatons (a : Asteroid) : ℝ := tnt_equivalent a.impact_energy

/-! ## models/impact_physics.py -/

/-- The `target_type` strings used by the calculator: the source compares
with `== 'land'` (crater scaling) and `== 'water'` (tsunami). -/
inductive Target
  | land
  | water
deriving DecidableEq

/-- The `ImpactParameters` dataclass.  It is a plain record: no check of
the parameter ranges happens at construction or later. -/
structure ImpactParameters where
  diameter : ℝ
  velocity : ℝ
  density : ℝ
  angle : ℝ
  target_type : Target

/-- `ImpactPhysicsCalculator.TNT_EQUIVALENT = 4.184e12`.  The source
comment calls this "Joules per megaton TNT", but 4.184e12 J is one
kiloton; `calculations.tnt_equivalent` and `calculate_enhanced_impact`
in the same repository use 4.184e15 J per megaton. -/
def TNT_EQUIVALENT : ℝ := 4.184e12

/-- `ImpactPhysicsCalculator.EARTH_GRAVITY`. -/
def EARTH_GRAVITY : ℝ := 9.81

/-- The fields written by `calculate_kinetic_energy`. -/
structure EnergyResults where
  mass : ℝ
  kinetic_energy_joules : ℝ
  kinetic_energy_megatons : ℝ
  effective_energy : ℝ
  effective_megatons : ℝ
  hiroshima_equivalent : ℝ

/-- `ImpactPhysicsCalculator.calculate_kinetic_energy`. -/
def calculate_kinetic_energy (p : ImpactParameters) : EnergyResults :=
  let radius := p.diameter / 2
  let volume := 4 / 3 * π * radius ^ 3
  let mass := volume * p.density
  let velocity_ms := p.velocity * 1000
  let kinetic_energy := 0.5 * mass * velocity_ms ^ 2
  let megatons_tnt := kinetic_energy / TNT_EQUIVALENT
  let angle_factor := Real.sin (radians p.angle)
  let effective_energy := kinetic_energy * angle_factor
  { mass := mass
    kinetic_energy_joules := kinetic_energy
    kinetic_energy_megatons := megatons_tnt
    effective_energy := effective_energy
    effective_megatons := effective_energy / TNT_EQUIVALENT
    hiroshima_equivalent := megatons_tnt / 0.015 }

/-- Crater scaling constant: 1.8 for `'land'`, else 2.2. -/
def crater_scaling : Target → ℝ
  | .land => 1.8
  | .water => 2.2

/-- Crater diameter in km: `C * energy_mt ** 0.28`
(`calculate_crater_dimensions`). -/
def crater_diameter_of (t : Target) (energy_mt : ℝ) : ℝ :=
  crater_scaling t * energy_mt ^ (0.28 : ℝ)

/-- Seismic magnitude (`calculate_seismic_effects`):
`0.67 * log10(E) - 5.87` when `E > 0`, else 0. -/
def seismic_magnitude_of (effective_energy : ℝ) : ℝ :=
  if 0 < effective_energy then 0.67 * Real.logb 10 effective_energy - 5.87 else 0

/-- The fixed seismic distance ladder, km. -/
def seismic_distances : List ℝ := [10, 50, 100, 500, 1000, 5000]

/-- Qualitative seismic bands of the labels
`Extreme/Severe/Strong/Moderate/Minor`. -/
inductive SeismicBand
  | extreme
  | severe
  | strong
  | moderate
  | minor
deriving DecidableEq

/-- Band selection on the clamped intensity value. -/
def seismic_band (v : ℝ) : SeismicBand :=
  if 10 ≤ v then .extreme
  else if 8 ≤ v then .severe
  else if 6 ≤ v then .strong
  else if 4 ≤ v then .moderate
  else .minor

/-- One entry of the `intensities` dictionary of
`calculate_seismic_effects`: distance → (band, clamped value).
FAITHFUL TO A SOURCE DEFECT: in the branch `distance < crater_radius`
the source assigns the string `"XII (Total destruction)"` to the local
variable `intensity`, which is never read again; it does NOT insert
anything into the `intensities` dictionary, so such distances produce
no entry at all. -/
def seismic_entry (magnitude crater_radius distance : ℝ) :
    Option (ℝ × SeismicBand × ℝ) :=
  if distance < crater_radius then none
  else
    let intensity_value := magnitude - 1.5 * Real.logb 10 (distance / crater_radius)
    let clamped := max 0 (min 12 intensity_value)
    some (distance, seismic_band clamped, clamped)

/-- The full intensity dictionary over the ladder. -/
def seismic_intensity_entries (magnitude crater_radius : ℝ) :
    List (ℝ × SeismicBand × ℝ) :=
  seismic_distances.filterMap (seismic_entry magnitude crater_radius)

/-- The fixed blast distance ladder, km. -/
def blast_distances : List ℝ := [1, 5, 10, 25, 50, 100, 250, 500]

/-- One entry of the `blast_effects` dictionary. -/
structure BlastEntry where
  distance : ℝ
  overpressure_psi : ℝ
  effect : String

/-- The overpressure tier for a scaled distance
(`calculate_blast_effects`). -/
def blast_tier (scaled_distance : ℝ) : ℝ × String :=
  if scaled_distance < 0.1 then (100, "Complete annihilation")
  else if scaled_distance < 0.5 then (20, "Reinforced concrete destroyed")
  else if scaled_distance < 1 then (10, "Heavy damage to buildings")
  else if scaled_distance < 2 then (5, "Most buildings collapse")
  else if scaled_distance < 5 then (2, "Moderate damage to structures")
  else if scaled_distance < 10 then (1, "Window breakage")
  else (0.1, "Minor damage")

/-- `calculate_blast_effects`: scaled distance `d / energy_mt ** 0.33`,
bucketed.  The `if distance == 0: continue` guard never fires on the
fixed ladder. -/
def blast_effects_of (energy_mt : ℝ) : List BlastEntry :=
  blast_distances.map (fun distance =>
    let scaled := distance / energy_mt ^ (0.33 : ℝ)
    let tier := blast_tier scaled
    { distance := distance, overpressure_psi := tier.1, effect := tier.2 })

/-- The fixed thermal distance ladder, km. -/
def thermal_distances : List ℝ := [1, 5, 10, 25, 50, 100, 250]

/-- `calculate_thermal_effects`: flux `(0.3*E_mt*1e6)/(4*pi*d^2)`,
kept as distance → flux (burn-tier strings omitted). -/
def thermal_effects_of (energy_mt : ℝ) : List (ℝ × ℝ) :=
  thermal_distances.map (fun distance =>
    (distance, energy_mt * 0.3 * 1e6 / (4 * π * distance ^ 2)))

/-- The fixed tsunami distance ladder, km. -/
def tsunami_distances : List ℝ := [100, 500, 1000, 2000, 5000]

/-- The tsunami record built by `calculate_tsunami_effects`
(only for `target_type == 'water'`): initial height, speed in km/h, and
distance → (wave height, arrival time in hours); hazard strings omitted. -/
structure TsunamiInfo where
  initial_height_m : ℝ
  speed_kmh : ℝ
  effects : List (ℝ × ℝ × ℝ)

/-- `calculate_tsunami_effects`. -/
def tsunami_info_of (energy_mt : ℝ) : TsunamiInfo :=
  let initial := 0.1 * Real.sqrt (energy_mt * 1000)
  let speed := Real.sqrt (EARTH_GRAVITY * 4000) * 3.6
  { initial_height_m := initial
    speed_kmh := speed
    effects := tsunami_distances.map (fun distance =>
      (distance, initial * Real.sqrt (100 / distance), distance / speed)) }

/-- The fixed ejecta distance ladder, km. -/
def ejecta_distances : List ℝ := [10, 50, 100, 500]

/-- `calculate_ejecta_effects`: only distances inside the blanket radius
are kept, with thickness `crater_diameter*10/(distance+1)`. -/
def ejecta_effects_of (crater_diameter_km : ℝ) : List (ℝ × ℝ) :=
  ejecta_distances.filterMap (fun distance =>
    if distance < crater_diameter_km * 2.5 then
      some (distance, crater_diameter_km * 10 / (distance + 1))
    else none)

/-- The `self.results` dictionary after `calculate_all`. -/
structure Results where
  mass : ℝ
  kinetic_energy_joules : ℝ
  kinetic_energy_megatons : ℝ
  effective_energy : ℝ
  effective_megatons : ℝ
  hiroshima_equivalent : ℝ
  crater_diameter_km : ℝ
  crater_depth_km : ℝ
  crater_volume_km3 : ℝ
  seismic_magnitude : ℝ
  seismic_intensities : List (ℝ × SeismicBand × ℝ)
  blast_effects : List BlastEntry
  thermal_effects : List (ℝ × ℝ)
  tsunami : Option TsunamiInfo
  ejecta_mass_kg : ℝ
  atmospheric_dust_kg : ℝ
  climate_disruption_years : ℝ
  ejecta_blanket_radius_km : ℝ
  ejecta_effects : List (ℝ × ℝ)

/-- `ImpactPhysicsCalculator.calculate_all`, in source order.  Tsunami
fields are only produced for a water target. -/
def calculate_results (p : ImpactParameters) : Results :=
  let e := calculate_kinetic_energy p
  let crater_diameter := crater_diameter_of p.target_type e.effective_megatons
  let crater_depth := crater_diameter / 5
  let crater_volume := π / 4 * crater_diameter ^ 2 * crater_depth
  let magnitude := seismic_magnitude_of e.effective_energy
  let ejecta_mass := crater_volume * 2.5e12
  { mass := e.mass
    kinetic_energy_joules := e.kinetic_energy_joules
    kinetic_energy_megatons := e.kinetic_energy_megatons
    effective_energy := e.effective_energy
    effective_megatons := e.effective_megatons
    hiroshima_equivalent := e.hiroshima_equivalent
    crater_diameter_km := crater_diameter
    crater_depth_km := crater_depth
    crater_volume_km3 := crater_volume
    seismic_magnitude := magnitude
    seismic_intensities := seismic_intensity_entries magnitude (crater_diameter / 2)
    blast_effects := blast_effects_of e.effective_megatons
    thermal_effects := thermal_effects_of e.effective_megatons
    tsunami := if p.target_type = Target.water
      then some (tsunami_info_of e.effective_megatons) else none
    ejecta_mass_kg := ejecta_mass
    atmospheric_dust_kg := ejecta_mass * 0.001
    climate_disruption_years :=
      if 1e6 < e.effective_megatons then 10
      else if 1e4 < e.effective_megatons then 3
      else if 1000 < e.effective_megatons then 1
      else if 100 < e.effective_megatons then 0.1
      else 0
    ejecta_blanket_radius_km := crater_diameter * 2.5
    ejecta_effects := ejecta_effects_of crater_diameter }

/-- The numeric content of the strings built by
`summarize_regional_effects`. -/
structure RegionalSummary where
  blast_radius_km : ℝ
  thermal_radius_km : ℝ
  ejecta_radius_km : ℝ
  tsunami_arrival_hours : Option ℝ

/-- `summarize_regional_effects`.  The source sets the local
`blast_radius` only inside `if data['overpressure_psi'] >= 5`, keeping
the LAST qualifying ladder distance; when no entry reaches 5 psi the
local is never assigned and the line
`f"Severe blast damage out to ~{blast_radius} km"` raises `NameError`,
modelled here as `none`. -/
def summarize_regional_effects (r : Results) : Option RegionalSummary :=
  match (r.blast_effects.filter (fun e => decide (5 ≤ e.overpressure_psi))).getLast? with
  | none => none
  | some e =>
      some { blast_radius_km := e.distance
             thermal_radius_km := e.distance / 2
             ejecta_radius_km := r.ejecta_blanket_radius_km
             tsunami_arrival_hours :=
               r.tsunami.bind (fun t => t.effects.head?.map (fun x => x.2.2)) }

/-- `calculate_impact(diameter, velocity, density, angle, target_type)`:
builds the parameter record with no validation, runs `calculate_all` and
`get_summary`, and returns parameters, results and summary together.
`none` models the two runtime faults a Python run raises on this path:
the seismic `ZeroDivisionError` when the crater radius is zero, and the
`NameError` of `summarize_regional_effects`. -/
def calculate_impact (diameter velocity density angle : ℝ) (target : Target) :
    Option (ImpactParameters × Results × RegionalSummary) :=
  let p : ImpactParameters :=
    { diameter := diameter, velocity := velocity, density := density,
      angle := angle, target_type := target }
  let r := calculate_results p
  if r.crater_diameter_km / 2 = 0 then none
  else (summarize_regional_effects r).map (fun s => (p, r, s))

/-! ## models/mitigation.py -/

/-- The numeric fields of a `DeflectionMission`; the launch and impact
dates only ever enter through their difference, which
`calculate_required_deflection` receives below as a time in years. -/
structure Mission where
  asteroid_diameter : ℝ
  asteroid_velocity : ℝ
  asteroid_mass : ℝ
  warning_time_years : ℝ
  mission_duration_years : ℝ

/-- `365.25 * 24 * 3600`, the seconds-per-year constant used throughout
the source. -/
def seconds_per_year : ℝ := 365.25 * 24 * 3600

/-- `MitigationCalculator.calculate_required_deflection`: safety margin
10 Earth radii = 63710 km; `delta_v = 63710 / time_years` km/year, then
converted to m/s.  `time_years = 0` raises `ZeroDivisionError` in
Python (modelled `none`); a negative `time_years` is NOT rejected and
produces a negative delta-v. -/
def calculate_required_deflection (time_years : ℝ) : Option ℝ :=
  if time_years = 0 then none
  else some (63710 / time_years * 1000 / seconds_per_year)

/-- The numeric fields of the per-strategy result dictionaries
(advantage/disadvantage texts, readiness tags and the nuclear
fragmentation-risk field are omitted: no claim refers to them). -/
structure StrategyResult where
  delta_v_ms : ℝ
  deflection_distance_km : ℝ
  success_probability : ℝ
  mission_cost_million_usd : ℝ
  preparation_time_years : ℝ

/-- `kinetic_impactor_deflection`: beta 3.5, impactor 500 kg at
10 km/s. -/
def kinetic_impactor_deflection (m : Mission) : StrategyResult :=
  let delta_v := 3.5 * 500 * (10 * 1000) / m.asteroid_mass
  let warning_seconds := m.warning_time_years * seconds_per_year
  { delta_v_ms := delta_v
    deflection_distance_km := delta_v * warning_seconds / 1000
    success_probability :=
      if m.asteroid_diameter < 100 then 0.95
      else if m.asteroid_diameter < 300 then 0.85
      else if m.asteroid_diameter < 500 then 0.70
      else 0.50
    mission_cost_million_usd := 300 + m.asteroid_diameter / 10
    preparation_time_years := 3 + m.asteroid_diameter / 200 }

/-- `gravity_tractor_deflection`: 1000 kg spacecraft at 100 m. -/
def gravity_tractor_deflection (m : Mission) : StrategyResult :=
  let accel := 6.674e-11 * 1000 / 100 ^ 2
  let duration_seconds := m.mission_duration_years * seconds_per_year
  let delta_v := accel * duration_seconds
  let warning_seconds := m.warning_time_years * seconds_per_year
  { delta_v_ms := delta_v
    deflection_distance_km := delta_v * warning_seconds / 1000
    success_probability :=
      if 10 < m.warning_time_years then 0.90
      else if 5 < m.warning_time_years then 0.75
      else 0.50
    mission_cost_million_usd := 1000 + m.mission_duration_years * 200
    preparation_time_years := 5 }

/-- `nuclear_deflection`: 1 Mt yield (4.184e15 J), 15% coupling. -/
def nuclear_deflection (m : Mission) : StrategyResult :=
  let energy_joules := 1 * 4.184e15
  let momentum := Real.sqrt (2 * 0.15 * energy_joules * m.asteroid_mass)
  let delta_v := momentum / m.asteroid_mass
  let warning_seconds := m.warning_time_years * seconds_per_year
  { delta_v_ms := delta_v
    deflection_distance_km := delta_v * warning_seconds / 1000
    success_probability :=
      if m.asteroid_diameter < 200 then 0.85
      else if m.asteroid_diameter < 500 then 0.75
      else 0.65
    mission_cost_million_usd := 5000
    preparation_time_years := 2 }

/-- Mass ablated by the 10 MW laser at 0.001 kg/s per MW over the
mission duration. -/
def laser_mass_ablated (m : Mission) : ℝ :=
  10 * 0.001 * (m.mission_duration_years * seconds_per_year)

/-- The argument passed to `math.log` by `laser_ablation_deflection`. -/
def laser_log_argument (m : Mission) : ℝ :=
  m.asteroid_mass / (m.asteroid_mass - laser_mass_ablated m)

/-- Python domain of `laser_ablation_deflection`: `math.log` raises
`ValueError` on a non-positive argument, and the division raises
`ZeroDivisionError` when the ablated mass equals the asteroid mass. -/
def laser_log_ok (m : Mission) : Prop := 0 < laser_log_argument m

/-- `laser_ablation_deflection`: rocket equation
`1000 * ln(mass / (mass - ablated))`. -/
def laser_ablation_deflection (m : Mission) : StrategyResult :=
  let delta_v := 1000 * Real.log (laser_log_argument m)
  let warning_seconds := m.warning_time_years * seconds_per_year
  { delta_v_ms := delta_v
    deflection_distance_km := delta_v * warning_seconds / 1000
    success_probability := 0.65
    mission_cost_million_usd := 2000 + m.mission_duration_years * 300
    preparation_time_years := 8 }

/-- `ion_beam_deflection`: constant 0.5 N thrust. -/
def ion_beam_deflection (m : Mission) : StrategyResult :=
  let duration_seconds := m.mission_duration_years * seconds_per_year
  let delta_v := 0.5 / m.asteroid_mass * duration_seconds
  let warning_seconds := m.warning_time_years * seconds_per_year
  { delta_v_ms := delta_v
    deflection_distance_km := delta_v * warning_seconds / 1000
    success_probability := if 10 < m.warning_time_years then 0.85 else 0.60
    mission_cost_million_usd := 1500 + m.mission_duration_years * 250
    preparation_time_years := 6 }

/-- The five canonical strategy tags. -/
inductive Strategy
  | kinetic_impactor
  | gravity_tractor
  | nuclear
  | laser_ablation
  | ion_beam
deriving DecidableEq

/-- Position in the evaluation order of `compare_all_strategies`. -/
def Strategy.idx : Strategy → ℕ
  | .kinetic_impactor => 0
  | .gravity_tractor => 1
  | .nuclear => 2
  | .laser_ablation => 3
  | .ion_beam => 4

/-- Dispatch of the five strategy models. -/
def evaluate_strategy : Strategy → Mission → StrategyResult
  | .kinetic_impactor => kinetic_impactor_deflection
  | .gravity_tractor => gravity_tractor_deflection
  | .nuclear => nuclear_deflection
  | .laser_ablation => laser_ablation_deflection
  | .ion_beam => ion_beam_deflection

/-- The insertion order of the `strategies` dictionary in
`compare_all_strategies`. -/
def strategy_order : List Strategy :=
  [.kinetic_impactor, .gravity_tractor, .nuclear, .laser_ablation, .ion_beam]

/-- One element of the `rankings` list: the `dv_ratio` of the source is
the field `dv_over_required`. -/
structure RankEntry where
  strategy : Strategy
  score : ℝ
  sufficient : Bool
  dv_over_required : ℝ
  data : StrategyResult

/-- Building one ranking entry: `dv_ratio = dv/required if required > 0
else 0`; weighted score; `is_sufficient = dv_ratio >= 1.0`. -/
def mk_rank_entry (required_dv : ℝ) (s : Strategy) (r : StrategyResult) : RankEntry :=
  let frac := if 0 < required_dv then r.delta_v_ms / required_dv else 0
  { strategy := s
    score := frac * 0.3 + r.success_probability * 0.3 +
      1000 / r.mission_cost_million_usd * 0.2 +
      1 / max r.preparation_time_years 1 * 0.2
    sufficient := decide (1 ≤ frac)
    dv_over_required := frac
    data := r }

/-- The sort order realised by Python `rankings.sort(key=score,
reverse=True)`: list.sort is stable, so the result is ordered by
descending score with ties kept in the original evaluation order, which
is exactly sortedness under this (total, transitive) relation. -/
def rank_rel (a b : RankEntry) : Prop :=
  b.score < a.score ∨ (a.score = b.score ∧ a.strategy.idx ≤ b.strategy.idx)

/-- Recommendation status strings. -/
inductive RecStatus
  | INSUFFICIENT
  | URGENT
  | ADEQUATE
  | OPTIMAL
deriving DecidableEq

/-- The decision content of the recommendation dictionary (message and
timeline strings omitted). -/
structure Recommendation where
  status : RecStatus
  primary_strategy : Option Strategy
  backup_strategies : List Strategy
  cost_estimate_million_usd : Option ℝ

/-- `generate_recommendations`.  Notice: in the URGENT branch the choice
between the nuclear and the kinetic-impactor wording affects only the
message string; `primary_strategy` is always `best['strategy']`, the
top-ranked sufficient strategy, and the backups are `rankings[1]` and
`rankings[2]` regardless of where `best` sits. -/
def generate_recommendations (warning_time_years : ℝ)
    (rankings : List RankEntry) : Recommendation :=
  match rankings.filter (fun e => e.sufficient) with
  | [] =>
      { status := .INSUFFICIENT, primary_strategy := none,
        backup_strategies := [], cost_estimate_million_usd := none }
  | best :: _ =>
      if warning_time_years < 5 then
        { status := .URGENT
          primary_strategy := some best.strategy
          backup_strategies := ((rankings.drop 1).take 2).map (fun e => e.strategy)
          cost_estimate_million_usd := some best.data.mission_cost_million_usd }
      else if warning_time_years < 15 then
        { status := .ADEQUATE
          primary_strategy := some Strategy.kinetic_impactor
          backup_strategies := [.ion_beam, .nuclear]
          cost_estimate_million_usd :=
            rankings.head?.map (fun e => e.data.mission_cost_million_usd) }
      else
        { status := .OPTIMAL
          primary_strategy := some Strategy.gravity_tractor
          backup_strategies := [.ion_beam, .kinetic_impactor]
          cost_estimate_million_usd :=
            rankings.head?.map (fun e => e.data.mission_cost_million_usd) }

/-- The record returned by `compare_all_strategies`. -/
structure Comparison where
  required_deflection_ms : ℝ
  warning_time_years : ℝ
  strategies : List (Strategy × StrategyResult)
  rankings : List RankEntry
  recommendations : Recommendation

/-- The body of `compare_all_strategies` after the required delta-v is
known: evaluate the five models in order, build ranking entries, sort
(stably, by descending score) and generate the recommendation. -/
def compare_with_required (required_dv : ℝ) (m : Mission) : Comparison :=
  let entries := strategy_order.map
    (fun s => mk_rank_entry required_dv s (evaluate_strategy s m))
  let sorted := List.insertionSort rank_rel entries
  { required_deflection_ms := required_dv
    warning_time_years := m.warning_time_years
    strategies := strategy_order.map (fun s => (s, evaluate_strategy s m))
    rankings := sorted
    recommendations := generate_recommendations m.warning_time_years sorted }

/-- `compare_all_strategies`, taking the years until impact
(`impact_date - launch_date` of the source). -/
def compare_all_strategies (time_years : ℝ) (m : Mission) : Option Comparison :=
  (calculate_required_deflection time_years).map
    (fun required_dv => compare_with_required required_dv m)

/-- The mission record assembled by `simulate_deflection_scenario`:
density 3000, spherical mass from the diameter; the launch date is set
`warning_years * 365.25` days before the impact date, so the time to
impact equals the warning time. -/
def simulate_mission (diameter velocity warning_years duration_years : ℝ) : Mission :=
  { asteroid_diameter := diameter
    asteroid_velocity := velocity
    asteroid_mass := 4 / 3 * π * (diameter / 2) ^ 3 * 3000
    warning_time_years := warning_years
    mission_duration_years := duration_years }

/-- `simulate_deflection_scenario`. -/
def simulate_deflection_scenario
    (diameter velocity warning_years duration_years : ℝ) : Option Comparison :=
  compare_all_strategies warning_years
    (simulate_mission diameter velocity warning_years duration_years)

/-- Concrete mission record used to probe the recommendation policy:
diameter 10 m, velocity 20 km/s, asteroid mass 1577880.00000001 kg
(just above the mass the 10 MW laser ablates in the default 5-year
mission), warning time 4 years, mission duration 5 years. -/
def missionC6 : Mission :=
  { asteroid_diameter := 10
    asteroid_velocity := 20
    asteroid_mass := 157788000000001 / 100000000
    warning_time_years := 4
    mission_duration_years := 5 }

/-- The required delta-v for a mission with four years to impact,
exactly as `calculate_required_deflection` produces it. -/
def requiredC6 : ℝ := 63710 / 4 * 1000 / seconds_per_year

/-- The ranking entry the comparator builds for strategy `s` on the
probe mission. -/
def entryC6 (s : Strategy) : RankEntry :=
  mk_rank_entry requiredC6 s (evaluate_strategy s missionC6)

instance : IsTrans RankEntry rank_rel := by
  constructor
  intro a b c hab hbc
  unfold rank_rel at hab hbc ⊢
  rcases hab with h1 | ⟨h1e, h1i⟩ <;> rcases hbc with h2 | ⟨h2e, h2i⟩
  · exact Or.inl (by linarith)
  · exact Or.inl (by linarith)
  · exact Or.inl (by linarith)
  · exact Or.inr ⟨by linarith, le_trans h1i h2i⟩

instance : IsTotal RankEntry rank_rel := by
  constructor
  intro a b
  unfold rank_rel
  rcases lt_trichotomy a.score b.score with h | h | h
  · exact Or.inr (Or.inl h)
  · rcases le_total a.strategy.idx b.strategy.idx with hi | hi
    · exact Or.inl (Or.inr ⟨h, hi⟩)
    · exact Or.inr (Or.inr ⟨h.symm, hi⟩)
  · exact Or.inl (Or.inl h)

/-! ## Theorems -/

/-- C1 (code_bug evidence): for every parameter record the calculator's
`kinetic_energy_megatons` and `effective_megatons` equal 1000 times the
joule energy divided by 4.184e15 — i.e. the source divides by the
kiloton constant 4.184e12, not by 4.184e15 as its own comment and
`calculations.tnt_equivalent` prescribe.  At the concrete input
(diameter 100 m, velocity 20 km/s, density 3000, angle 45, land) the
claimed value `E/4.184e15` is strictly smaller than the field the code
computes. -/
theorem c1_calculator_megatons_mismatch :
    (∀ p : ImpactParameters,
      (calculate_kinetic_energy p).kinetic_energy_megatons =
        1000 * tnt_equivalent (calculate_kinetic_energy p).kinetic_energy_joules ∧
      (calculate_kinetic_energy p).effective_megatons =
        1000 * tnt_equivalent (calculate_kinetic_energy p).effective_energy) ∧
    tnt_equivalent
        (calculate_kinetic_energy ⟨100, 20, 3000, 45, .land⟩).kinetic_energy_joules <
      (calculate_kinetic_energy ⟨100, 20, 3000, 45, .land⟩).kinetic_energy_megatons := by
  constructor
  · intro p
    constructor <;>
      · simp only [calculate_kinetic_energy, tnt_equivalent, TNT_EQUIVALENT]
        ring
  · have hs : (0.7 : ℝ) < Real.sin (radians 45) := by
      have h45 : radians 45 = π / 4 := by unfold radians; ring
      rw [h45, Real.sin_pi_div_four]
      have h2 : (1.4 : ℝ) < Real.sqrt 2 := by
        have := Real.sq_sqrt (by norm_num : (2:ℝ) ≥ 0)
        nlinarith [Real.sqrt_nonneg 2]
      linarith
    simp only [calculate_kinetic_energy, tnt_equivalent, TNT_EQUIVALENT]
    have hπ := Real.pi_gt_d2
    nlinarith [Real.pi_pos]

/-- C2 (counterexample): constructing an impactor with diameter −1
succeeds and the stored diameter is −1 (no `InvalidParameter` error
exists anywhere on this path; the calculator then computes a negative
mass from it), and an angle of 120 degrees is stored as 120, not
clamped into [0, 90]. -/
theorem c2_counterexample :
    (Asteroid.init (-1) 20 (some 3000) (some 45)).diameter = -1 ∧
    (calculate_kinetic_energy ⟨-1, 20, 3000, 45, .land⟩).mass < 0 ∧
    (Asteroid.init 100 20 (some 3000) (some 120)).angle = 120 ∧
    90 < (Asteroid.init 100 20 (some 3000) (some 120)).angle := by
  refine ⟨rfl, ?_, ?_, ?_⟩
  · simp only [calculate_kinetic_energy]
    nlinarith [Real.pi_pos]
  · simp [Asteroid.init]
  · simp only [Asteroid.init]
    norm_num

/-- C2 (amended): no validation is performed at all: the spherical mass
is computed from whatever diameter and density are supplied (positive or
not), and any non-zero angle — in range or not — is stored unchanged
(only the falsy values `0`/`None` are replaced by the default 45). -/
theorem c2_amended (d v dens ang : ℝ) (t : Target) (a : ℝ) (h : a ≠ 0) :
    (calculate_kinetic_energy ⟨d, v, dens, ang, t⟩).mass =
      4 / 3 * π * (d / 2) ^ 3 * dens ∧
    (Asteroid.init d v (some dens) (some a)).angle = a ∧
    (Asteroid.init d v (some dens) (some a)).diameter = d := by
  refine ⟨rfl, ?_, rfl⟩
  simp [Asteroid.init, h]

/-- C2 witness for the amended theorem at a concrete out-of-range
angle. -/
theorem c2_amended_witness :
    (Asteroid.init 100 20 (some 3000) (some 120)).angle = 120 :=
  (c2_amended 100 20 3000 45 Target.land 120 (by norm_num)).2.1

/-- C4 (counterexample): a mission whose impact date is one year before
its launch date (time to impact −1 years ≤ 0) is NOT rejected: the
required-deflection computation returns a (negative) delta-v instead of
failing with `InvalidSchedule`. -/
theorem c4_counterexample :
    calculate_required_deflection (-1) =
      some (63710 / (-1) * 1000 / seconds_per_year) ∧
    63710 / (-1) * 1000 / seconds_per_year < 0 := by
  constructor
  · simp [calculate_required_deflection]
  · norm_num [seconds_per_year]

/-- C4 (amended): only `time_years = 0` faults (Python
`ZeroDivisionError`, modelled `none`); every non-zero time — including
negative ones — yields `(63710 / years) / seconds_per_year * 1000` m/s,
which is the claimed formula, and is negative when `years < 0`. -/
theorem c4_amended (time_years : ℝ) :
    (time_years = 0 → calculate_required_deflection time_years = none) ∧
    (time_years ≠ 0 →
      calculate_required_deflection time_years =
        some (63710 / time_years / seconds_per_year * 1000)) ∧
    (time_years < 0 →
      63710 / time_years / seconds_per_year * 1000 < 0) := by
  refine ⟨?_, ?_, ?_⟩
  · intro h; simp [calculate_required_deflection, h]
  · intro h
    simp only [calculate_required_deflection, if_neg h]
    congr 1
    ring
  · intro h
    have hs : (0:ℝ) < seconds_per_year := by norm_num [seconds_per_year]
    have h1 : 63710 / time_years < 0 := div_neg_of_pos_of_neg (by norm_num) h
    have h2 : 63710 / time_years / seconds_per_year < 0 := div_neg_of_neg_of_pos h1 hs
    linarith

/-- C4 witness: the amended theorem applied at ten years to impact. -/
theorem c4_amended_witness :
    calculate_required_deflection 10 =
      some (63710 / 10 / seconds_per_year * 1000) :=
  (c4_amended 10).2.1 (by norm_num)

/-- C8 (counterexample): two scenarios with impact angle 0 — a value in
the documented valid range — have identical effective megatons (zero,
since sin 0 = 0), and the water crater diameter equals the land crater
diameter (both zero): the water constant does not yield a strictly
larger crater at this energy. -/
theorem c8_counterexample :
    (calculate_results ⟨100, 20, 3000, 0, .water⟩).effective_megatons =
      (calculate_results ⟨100, 20, 3000, 0, .land⟩).effective_megatons ∧
    (calculate_results ⟨100, 20, 3000, 0, .water⟩).crater_diameter_km =
      (calculate_results ⟨100, 20, 3000, 0, .land⟩).crater_diameter_km ∧
    (calculate_results ⟨100, 20, 3000, 0, .land⟩).crater_diameter_km = 0 := by
  have hrad : radians 0 = 0 := by unfold radians; ring
  have hmt : ∀ t : Target,
      (calculate_results ⟨100, 20, 3000, 0, t⟩).effective_megatons = 0 := by
    intro t
    simp [calculate_results, calculate_kinetic_energy, hrad, Real.sin_zero]
  have hcr : ∀ t : Target,
      (calculate_results ⟨100, 20, 3000, 0, t⟩).crater_diameter_km = 0 := by
    intro t
    have : (calculate_results ⟨100, 20, 3000, 0, t⟩).crater_diameter_km =
        crater_diameter_of t (calculate_results ⟨100, 20, 3000, 0, t⟩).effective_megatons := rfl
    rw [this, hmt t]
    unfold crater_diameter_of
    rw [Real.zero_rpow (by norm_num)]
    ring
  exact ⟨by rw [hmt, hmt], by rw [hcr, hcr], hcr .land⟩

/-- C8 (amended): crater diameter `C * E ** 0.28` is strictly increasing
in the effective megatons (for non-negative energies), and for every
pair of scenarios with identical strictly positive effective energy the
water constant 2.2 yields a strictly larger crater than the land
constant 1.8; at exactly zero effective energy (impact angle 0) the two
coincide. -/
theorem c8_amended :
    (∀ (t : Target) (e1 e2 : ℝ), 0 ≤ e1 → e1 < e2 →
      crater_diameter_of t e1 < crater_diameter_of t e2) ∧
    (∀ e : ℝ, 0 < e →
      crater_diameter_of .land e < crater_diameter_of .water e) := by
  constructor
  · intro t e1 e2 h0 h12
    have hpow := Real.rpow_lt_rpow h0 h12 (by norm_num : (0:ℝ) < 0.28)
    have hc : 0 < crater_scaling t := by cases t <;> norm_num [crater_scaling]
    unfold crater_diameter_of
    exact mul_lt_mul_of_pos_left hpow hc
  · intro e he
    have hpow : 0 < e ^ (0.28 : ℝ) := Real.rpow_pos_of_pos he _
    unfold crater_diameter_of crater_scaling
    nlinarith

/-- C8 witness: the amended theorem applied at energies 1 < 2 and at
energy 1. -/
theorem c8_amended_witness :
    crater_diameter_of .land 1 < crater_diameter_of .land 2 ∧
    crater_diameter_of .land 1 < crater_diameter_of .water 1 :=
  ⟨c8_amended.1 .land 1 2 (by norm_num) (by norm_num),
   c8_amended.2 1 (by norm_num)⟩

/-- C9: for the mission with asteroid diameter 450 m, velocity
18.5 km/s and warning time 10 years, the kinetic-impactor result has
success probability exactly 0.70 (the 300–500 m bucket) and mission
cost exactly 300 + 450/10 = 345 million USD. -/
theorem c9_kinetic_result_450m :
    (evaluate_strategy .kinetic_impactor
        (simulate_mission 450 18.5 10 5)).success_probability = 0.70 ∧
    (evaluate_strategy .kinetic_impactor
        (simulate_mission 450 18.5 10 5)).mission_cost_million_usd = 300 + 450 / 10 ∧
    (evaluate_strategy .kinetic_impactor
        (simulate_mission 450 18.5 10 5)).mission_cost_million_usd = 345 := by
  refine ⟨?_, ?_, ?_⟩
  · show (if (450:ℝ) < 100 then (0.95:ℝ) else if (450:ℝ) < 300 then 0.85
      else if (450:ℝ) < 500 then 0.70 else 0.50) = 0.70
    rw [if_neg (by norm_num), if_neg (by norm_num), if_pos (by norm_num)]
  · rfl
  · show (300 : ℝ) + 450 / 10 = 345
    norm_num

/-- C10: constructing an `Asteroid` with impact angle 0 yields an object
whose angle is 45: the constructor replaces every falsy angle (0 or
None) by the default 45, the object is identical to the one built with
angle 45 (so all derived energies agree), and in general the stored
angle is the given one exactly when it is non-zero. -/
theorem c10_angle_zero_becomes_45 (d v : ℝ) (dens : Option ℝ) :
    (Asteroid.init d v dens (some 0)).angle = 45 ∧
    Asteroid.init d v dens (some 0) = Asteroid.init d v dens (some 45) ∧
    (Asteroid.init d v dens (some 0)).impact_energy =
      (Asteroid.init d v dens (some 45)).impact_energy ∧
    (Asteroid.init d v dens none).angle = 45 ∧
    (∀ a : ℝ, (Asteroid.init d v dens (some a)).angle =
      if a = 0 then 45 else a) := by
  have h0 : (Asteroid.init d v dens (some 0)).angle = 45 := by
    simp [Asteroid.init]
  have heq : Asteroid.init d v dens (some 0) = Asteroid.init d v dens (some 45) := by
    simp [Asteroid.init]
  exact ⟨h0, heq, by rw [heq], rfl, fun a => rfl⟩

/-- Numeric bounds on the square root of two, shared by several
evaluations. -/
theorem sqrt_two_bounds : 1.414 < Real.sqrt 2 ∧ Real.sqrt 2 < 1.4143 := by
  have hsq := Real.sq_sqrt (show (0:ℝ) ≤ 2 by norm_num)
  have hnn := Real.sqrt_nonneg 2
  constructor <;> nlinarith

/-- The effective megatons of the benchmark scenario (500 m, 20 km/s,
density 3000, angle 45, land) lie between 6.0e6 and 7.0e6 — the huge
value comes from the kiloton constant used as megaton divisor. -/
theorem p500_eff_megatons_bounds :
    6000000 < (calculate_results ⟨500, 20, 3000, 45, .land⟩).effective_megatons ∧
    (calculate_results ⟨500, 20, 3000, 45, .land⟩).effective_megatons < 7000000 := by
  have hsin : Real.sin (radians 45) = Real.sqrt 2 / 2 := by
    unfold radians
    rw [show (45:ℝ) * π / 180 = π / 4 by ring, Real.sin_pi_div_four]
  have hEeq : (calculate_results ⟨500, 20, 3000, 45, .land⟩).effective_megatons =
      π * Real.sqrt 2 * (1.25e19 / 8.368e12) := by
    simp only [calculate_results, calculate_kinetic_energy, TNT_EQUIVALENT]
    rw [hsin]
    ring
  obtain ⟨hs1, hs2⟩ := sqrt_two_bounds
  have hp1 := Real.pi_gt_d4
  have hp2 := Real.pi_lt_d4
  have hps1 : (4.442 : ℝ) < π * Real.sqrt 2 := by nlinarith
  have hps2 : π * Real.sqrt 2 < (4.4432 : ℝ) := by nlinarith
  rw [hEeq]
  constructor <;> nlinarith

/-- Window for `x ^ 0.28` from a window on `x`. -/
theorem rpow28_window {x : ℝ} (h0 : 0 ≤ x) (h1 : 6000000 < x) (h2 : x < 7000000) :
    500 / 9 < x ^ (0.28 : ℝ) ∧ x ^ (0.28 : ℝ) < 1000 / 9 := by
  have hxp : x ^ (0.28 : ℝ) = x ^ ((7 : ℝ) / 25) := by norm_num
  have hcast : (7 : ℝ) / 25 * ((25 : ℕ) : ℝ) = ((7 : ℕ) : ℝ) := by push_cast; norm_num
  have hpow : (x ^ ((7 : ℝ) / 25)) ^ (25 : ℕ) = x ^ (7 : ℕ) := by
    rw [← Real.rpow_natCast (x ^ ((7 : ℝ) / 25)) 25, ← Real.rpow_mul h0, hcast,
      Real.rpow_natCast]
  constructor
  · rw [hxp]
    apply lt_of_pow_lt_pow_left₀ 25 (Real.rpow_nonneg h0 _)
    rw [hpow]
    calc ((500 : ℝ) / 9) ^ 25 < 6000000 ^ 7 := by norm_num
      _ ≤ x ^ 7 := pow_le_pow_left₀ (by norm_num) (le_of_lt h1) 7
  · rw [hxp]
    apply lt_of_pow_lt_pow_left₀ 25 (by norm_num : (0:ℝ) ≤ 1000 / 9)
    rw [hpow]
    calc x ^ 7 ≤ 7000000 ^ 7 := pow_le_pow_left₀ h0 (le_of_lt h2) 7
      _ < ((1000 : ℝ) / 9) ^ 25 := by norm_num

/-- The crater radius of the benchmark scenario lies strictly between
50 and 100 km. -/
theorem p500_radius_bounds :
    50 < (calculate_results ⟨500, 20, 3000, 45, .land⟩).crater_diameter_km / 2 ∧
    (calculate_results ⟨500, 20, 3000, 45, .land⟩).crater_diameter_km / 2 < 100 := by
  obtain ⟨h6, h7⟩ := p500_eff_megatons_bounds
  have hfield : (calculate_results ⟨500, 20, 3000, 45, .land⟩).crater_diameter_km =
      1.8 * ((calculate_results ⟨500, 20, 3000, 45, .land⟩).effective_megatons) ^ (0.28 : ℝ) :=
    rfl
  obtain ⟨hl, hu⟩ := rpow28_window (by linarith) h6 h7
  rw [hfield]
  constructor <;> linarith

/-- For a crater radius strictly between 50 and 100 km, the keys of the
seismic intensity mapping are exactly 100, 500, 1000 and 5000: the
ladder distances 10 and 50 produce no entry at all. -/
theorem seismic_keys_of_radius (M R : ℝ) (h50 : 50 < R) (h100 : R < 100) :
    (seismic_intensity_entries M R).map (fun e => e.1) = [100, 500, 1000, 5000] := by
  have hnone : ∀ d : ℝ, d < R → seismic_entry M R d = none := fun d hd =>
    if_pos hd
  have hsome : ∀ d : ℝ, ¬ d < R →
      seismic_entry M R d = some (d, seismic_band (max 0 (min 12 (M - 1.5 * Real.logb 10 (d / R)))),
        max 0 (min 12 (M - 1.5 * Real.logb 10 (d / R)))) := fun d hd => if_neg hd
  unfold seismic_intensity_entries seismic_distances
  rw [List.filterMap_cons_none (hnone 10 (by linarith)),
    List.filterMap_cons_none (hnone 50 (by linarith)),
    List.filterMap_cons_some (hsome 100 (by push_neg; linarith)),
    List.filterMap_cons_some (hsome 500 (by push_neg; linarith)),
    List.filterMap_cons_some (hsome 1000 (by push_neg; linarith)),
    List.filterMap_cons_some (hsome 5000 (by push_neg; linarith))]
  simp

/-- C5 (code_bug evidence): in the benchmark scenario the crater radius
exceeds the ladder distances 10 and 50 km, and the intensity-by-distance
mapping then contains exactly the keys 100, 500, 1000, 5000: contrary to
the claim, distances inside the crater radius are not mapped to the
"total destruction" tag but are missing entirely (the source assigns
that label to a local variable that is never stored). -/
theorem c5_seismic_ladder_entries_missing :
    10 < (calculate_results ⟨500, 20, 3000, 45, .land⟩).crater_diameter_km / 2 ∧
    ((calculate_results ⟨500, 20, 3000, 45, .land⟩).seismic_intensities.map
      (fun e => e.1)) = [100, 500, 1000, 5000] := by
  obtain ⟨h50, h100⟩ := p500_radius_bounds
  refine ⟨by linarith, ?_⟩
  have hfield : (calculate_results ⟨500, 20, 3000, 45, .land⟩).seismic_intensities =
      seismic_intensity_entries
        ((calculate_results ⟨500, 20, 3000, 45, .land⟩).seismic_magnitude)
        ((calculate_results ⟨500, 20, 3000, 45, .land⟩).crater_diameter_km / 2) := rfl
  rw [hfield, seismic_keys_of_radius _ _ h50 h100]

/-- A blast tier reached with scaled distance at least 2 is strictly
below 5 psi. -/
theorem blast_tier_lt_5 {s : ℝ} (h : ¬ s < 2) : (blast_tier s).1 < 5 := by
  unfold blast_tier
  split_ifs <;> first | linarith | norm_num

/-- The effective megatons of the tiny scenario (1 m, 1 km/s, density
3000, angle 45, land) are strictly between 0 and 2.0e-4. -/
theorem p1_eff_megatons_bounds :
    0 < (calculate_results ⟨1, 1, 3000, 45, .land⟩).effective_megatons ∧
    (calculate_results ⟨1, 1, 3000, 45, .land⟩).effective_megatons < 2e-4 := by
  have hsin : Real.sin (radians 45) = Real.sqrt 2 / 2 := by
    unfold radians
    rw [show (45:ℝ) * π / 180 = π / 4 by ring, Real.sin_pi_div_four]
  have hEeq : (calculate_results ⟨1, 1, 3000, 45, .land⟩).effective_megatons =
      π * Real.sqrt 2 * (2.5e8 / 8.368e12) := by
    simp only [calculate_results, calculate_kinetic_energy, TNT_EQUIVALENT]
    rw [hsin]
    ring
  obtain ⟨hs1, hs2⟩ := sqrt_two_bounds
  have hp1 := Real.pi_gt_d4
  have hp2 := Real.pi_lt_d4
  have hps1 : (4.442 : ℝ) < π * Real.sqrt 2 := by nlinarith
  have hps2 : π * Real.sqrt 2 < (4.4432 : ℝ) := by nlinarith
  rw [hEeq]
  constructor <;> nlinarith

/-- For the tiny scenario every blast ladder entry stays below 5 psi,
so the filter used by `summarize_regional_effects` is empty. -/
theorem p1_blast_filter_empty :
    ((calculate_results ⟨1, 1, 3000, 45, .land⟩).blast_effects.filter
      (fun e => decide (5 ≤ e.overpressure_psi))) = [] := by
  obtain ⟨hE0, hE2⟩ := p1_eff_megatons_bounds
  set E := (calculate_results ⟨1, 1, 3000, 45, .land⟩).effective_megatons with hE
  have hE33pos : 0 < E ^ (0.33 : ℝ) := Real.rpow_pos_of_pos hE0 _
  have hE33 : E ^ (0.33 : ℝ) < 1 / 2 := by
    have hxp : E ^ (0.33 : ℝ) = E ^ ((33 : ℝ) / 100) := by norm_num
    have hcast : (33 : ℝ) / 100 * ((100 : ℕ) : ℝ) = ((33 : ℕ) : ℝ) := by
      push_cast; norm_num
    have hpow : (E ^ ((33 : ℝ) / 100)) ^ (100 : ℕ) = E ^ (33 : ℕ) := by
      rw [← Real.rpow_natCast (E ^ ((33 : ℝ) / 100)) 100, ← Real.rpow_mul (le_of_lt hE0),
        hcast, Real.rpow_natCast]
    rw [hxp]
    apply lt_of_pow_lt_pow_left₀ 100 (by norm_num : (0:ℝ) ≤ 1 / 2)
    rw [hpow]
    calc E ^ 33 ≤ (2e-4) ^ 33 := pow_le_pow_left₀ (le_of_lt hE0) (le_of_lt hE2) 33
      _ < ((1 : ℝ) / 2) ^ 100 := by norm_num
  have hfield : (calculate_results ⟨1, 1, 3000, 45, .land⟩).blast_effects =
      blast_effects_of E := rfl
  rw [hfield]
  apply List.filter_eq_nil_iff.mpr
  intro a ha
  simp only [blast_effects_of, List.mem_map] at ha
  obtain ⟨d, hd, rfl⟩ := ha
  have hd1 : (1 : ℝ) ≤ d := by
    fin_cases hd <;> norm_num
  have hscaled : ¬ d / E ^ (0.33 : ℝ) < 2 := by
    push_neg
    rw [le_div_iff₀ hE33pos]
    nlinarith
  simp only [decide_eq_true_eq, not_le]
  exact blast_tier_lt_5 hscaled

/-- C3 (code_bug evidence): two well-formed inputs make the code fault.
First, `calculate_impact(1, 1, 3000, 45, 'land')` fails: no blast ladder
entry reaches 5 psi, so the local `blast_radius` of
`summarize_regional_effects` is never assigned and the summary line
raises `NameError` (modelled as `none`).  Second, in the deflection
scenario with diameter 10 m, warning 10 years and the default 5-year
mission duration, the asteroid mass (500000π kg) is positive yet smaller
than the laser-ablated mass 1577880 kg, so the laser-ablation model
passes a negative argument to `math.log`, a `ValueError`. -/
theorem c3_runtime_faults :
    calculate_impact 1 1 3000 45 .land = none ∧
    0 < (simulate_mission 10 20 10 5).asteroid_mass ∧
    (simulate_mission 10 20 10 5).asteroid_mass -
      laser_mass_ablated (simulate_mission 10 20 10 5) < 0 ∧
    laser_log_argument (simulate_mission 10 20 10 5) < 0 := by
  have hmass : (simulate_mission 10 20 10 5).asteroid_mass = 500000 * π := by
    simp only [simulate_mission]
    ring
  have habl : laser_mass_ablated (simulate_mission 10 20 10 5) = 1577880 := by
    simp only [laser_mass_ablated, simulate_mission, seconds_per_year]
    norm_num
  have hmpos : 0 < (simulate_mission 10 20 10 5).asteroid_mass := by
    rw [hmass]
    positivity
  have hneg : (simulate_mission 10 20 10 5).asteroid_mass -
      laser_mass_ablated (simulate_mission 10 20 10 5) < 0 := by
    rw [hmass, habl]
    nlinarith [Real.pi_lt_d2]
  refine ⟨?_, hmpos, hneg, ?_⟩
  · unfold calculate_impact
    by_cases hc : (calculate_results
        ⟨1, 1, 3000, 45, .land⟩).crater_diameter_km / 2 = 0
    · rw [if_pos hc]
    · rw [if_neg hc]
      have hsum : summarize_regional_effects (calculate_results ⟨1, 1, 3000, 45, .land⟩) =
          none := by
        unfold summarize_regional_effects
        rw [p1_blast_filter_empty]
        rfl
      rw [hsum]
      rfl
  · unfold laser_log_argument
    exact div_neg_of_pos_of_neg hmpos hneg

/-- C7: for every required delta-v and mission, the strategies map has
exactly the five canonical keys in evaluation order, and the rankings
list is a permutation of the five canonical strategies, sorted by
descending composite score with ties broken by the original evaluation
order (the relation `rank_rel`, realising the stable descending
sort). -/
theorem c7_rankings_permutation (required_dv : ℝ) (m : Mission) :
    ((compare_with_required required_dv m).strategies.map (fun e => e.1)) =
      strategy_order ∧
    ((compare_with_required required_dv m).rankings.map
      (fun e => e.strategy)).Perm strategy_order ∧
    List.Sorted rank_rel (compare_with_required required_dv m).rankings := by
  have hkeys : ∀ l : List Strategy,
      (l.map (fun s => mk_rank_entry required_dv s (evaluate_strategy s m))).map
        (fun e => e.strategy) = l := by
    intro l
    induction l with
    | nil => rfl
    | cons a t ih =>
        rw [List.map_cons, List.map_cons,
          show (mk_rank_entry required_dv a (evaluate_strategy a m)).strategy = a from rfl,
          ih]
  refine ⟨?_, ?_, ?_⟩
  · have hfst : ∀ l : List Strategy,
        (l.map (fun s => (s, evaluate_strategy s m))).map (fun e => e.1) = l := by
      intro l
      induction l with
      | nil => rfl
      | cons a t ih => simp only [List.map_cons, ih]
    have hdef : (compare_with_required required_dv m).strategies =
        strategy_order.map (fun s => (s, evaluate_strategy s m)) := rfl
    rw [hdef, hfst]
  · have hperm := List.perm_insertionSort rank_rel
      (strategy_order.map (fun s => mk_rank_entry required_dv s (evaluate_strategy s m)))
    have h2 := hperm.map (fun e : RankEntry => e.strategy)
    have h3 : (compare_with_required required_dv m).rankings =
        List.insertionSort rank_rel
          (strategy_order.map (fun s => mk_rank_entry required_dv s (evaluate_strategy s m))) :=
      rfl
    rw [h3]
    rw [hkeys strategy_order] at h2
    exact h2
  · exact List.sorted_insertionSort rank_rel _

/-- If `x` is in `l` and has strictly the greatest score, the stable
sort puts it first. -/
theorem insertionSort_cons_max (l : List RankEntry) (x : RankEntry) (hx : x ∈ l)
    (hmax : ∀ y ∈ l, y = x ∨ y.score < x.score) :
    ∃ t, List.insertionSort rank_rel l = x :: t := by
  have hperm := List.perm_insertionSort rank_rel l
  have hsort : List.Sorted rank_rel (List.insertionSort rank_rel l) :=
    List.sorted_insertionSort rank_rel l
  cases hL : List.insertionSort rank_rel l with
  | nil =>
      exfalso
      have hmem : x ∈ List.insertionSort rank_rel l := hperm.mem_iff.mpr hx
      rw [hL] at hmem
      exact absurd hmem (List.not_mem_nil x)
  | cons h t =>
      by_cases hhx : h = x
      · exact ⟨t, by rw [hhx]⟩
      · exfalso
        have hhl : h ∈ l := hperm.mem_iff.mp (by rw [hL]; exact List.mem_cons_self h t)
        have hxs : x ∈ h :: t := by rw [← hL]; exact hperm.mem_iff.mpr hx
        have hxt : x ∈ t := by
          rcases List.mem_cons.mp hxs with h1 | h1
          · exact absurd h1.symm hhx
          · exact h1
        have hrel : rank_rel h x := by
          rw [hL] at hsort
          exact (List.sorted_cons.mp hsort).1 x hxt
        rcases hmax h hhl with h1 | h1
        · exact hhx h1
        · unfold rank_rel at hrel
          rcases hrel with h2 | ⟨h2, _⟩ <;> linarith

/-- Bounds on the required delta-v at four years to impact
(≈ 0.5047 m/s). -/
theorem requiredC6_bounds : 0.504 < requiredC6 ∧ requiredC6 < 0.505 := by
  unfold requiredC6 seconds_per_year
  norm_num

/-- The laser-ablation delta-v on the probe mission exceeds 31000 m/s:
the log argument is exactly 157788000000001 and
`exp 31 < 2.7182818286 ^ 31 < 1.5e14`. -/
theorem c6_laser_dv :
    31000 < (evaluate_strategy .laser_ablation missionC6).delta_v_ms := by
  have harg : laser_log_argument missionC6 = 157788000000001 := by
    unfold laser_log_argument laser_mass_ablated missionC6 seconds_per_year
    norm_num
  have hshow : (evaluate_strategy .laser_ablation missionC6).delta_v_ms =
      1000 * Real.log (laser_log_argument missionC6) := rfl
  rw [hshow, harg]
  have h31 : (31 : ℝ) < Real.log 157788000000001 := by
    rw [Real.lt_log_iff_exp_lt (by norm_num)]
    calc Real.exp 31 = Real.exp 1 ^ (31 : ℕ) := by
          rw [← Real.exp_nat_mul]
          norm_num
      _ < 2.7182818286 ^ (31 : ℕ) :=
          pow_lt_pow_left₀ Real.exp_one_lt_d9 (Real.exp_pos 1).le (by norm_num)
      _ < 157788000000001 := by norm_num
  linarith

/-- The nuclear delta-v on the probe mission is non-negative and below
29000 m/s. -/
theorem c6_nuclear_dv :
    0 ≤ (evaluate_strategy .nuclear missionC6).delta_v_ms ∧
    (evaluate_strategy .nuclear missionC6).delta_v_ms < 29000 := by
  have hshow : (evaluate_strategy .nuclear missionC6).delta_v_ms =
      Real.sqrt (2 * 0.15 * (1 * 4.184e15) * (157788000000001 / 100000000)) /
        (157788000000001 / 100000000) := rfl
  rw [hshow]
  have hM : (0 : ℝ) < 157788000000001 / 100000000 := by norm_num
  constructor
  · exact div_nonneg (Real.sqrt_nonneg _) hM.le
  · rw [div_lt_iff₀ hM]
    rw [Real.sqrt_lt' (by positivity)]
    norm_num

/-- The kinetic-impactor delta-v on the probe mission is non-negative
and below 11.1 m/s. -/
theorem c6_kinetic_dv :
    0 ≤ (evaluate_strategy .kinetic_impactor missionC6).delta_v_ms ∧
    (evaluate_strategy .kinetic_impactor missionC6).delta_v_ms < 11.1 := by
  have hshow : (evaluate_strategy .kinetic_impactor missionC6).delta_v_ms =
      3.5 * 500 * (10 * 1000) / (157788000000001 / 100000000) := rfl
  rw [hshow]
  constructor <;> norm_num

/-- The gravity-tractor delta-v on the probe mission is non-negative and
below 0.5 m/s. -/
theorem c6_gravity_dv :
    0 ≤ (evaluate_strategy .gravity_tractor missionC6).delta_v_ms ∧
    (evaluate_strategy .gravity_tractor missionC6).delta_v_ms < 0.5 := by
  have hshow : (evaluate_strategy .gravity_tractor missionC6).delta_v_ms =
      6.674e-11 * 1000 / 100 ^ 2 * (5 * seconds_per_year) := rfl
  rw [hshow]
  unfold seconds_per_year
  constructor <;> norm_num

/-- The ion-beam delta-v on the probe mission is non-negative and below
51 m/s. -/
theorem c6_ion_dv :
    0 ≤ (evaluate_strategy .ion_beam missionC6).delta_v_ms ∧
    (evaluate_strategy .ion_beam missionC6).delta_v_ms < 51 := by
  have hshow : (evaluate_strategy .ion_beam missionC6).delta_v_ms =
      0.5 / (157788000000001 / 100000000) * (5 * seconds_per_year) := rfl
  rw [hshow]
  unfold seconds_per_year
  constructor <;> norm_num

/-- The composite score of an entry, with the positive-required-delta-v
branch taken. -/
theorem entryC6_score (s : Strategy) :
    (entryC6 s).score =
      (evaluate_strategy s missionC6).delta_v_ms / requiredC6 * 0.3 +
      (evaluate_strategy s missionC6).success_probability * 0.3 +
      1000 / (evaluate_strategy s missionC6).mission_cost_million_usd * 0.2 +
      1 / max (evaluate_strategy s missionC6).preparation_time_years 1 * 0.2 := by
  have hpos : (0 : ℝ) < requiredC6 := by linarith [requiredC6_bounds.1]
  simp only [entryC6, mk_rank_entry]
  rw [if_pos hpos]

/-- Generic upper bound on a probe-mission score from an upper bound on
the effectiveness quotient. -/
theorem entryC6_score_ub (s : Strategy) (B : ℝ)
    (hfrac : (evaluate_strategy s missionC6).delta_v_ms / requiredC6 < B)
    (hprob : (evaluate_strategy s missionC6).success_probability ≤ 0.95)
    (hcost : 300 ≤ (evaluate_strategy s missionC6).mission_cost_million_usd) :
    (entryC6 s).score < B * 0.3 + 1.2 := by
  rw [entryC6_score]
  have h1 : 1000 / (evaluate_strategy s missionC6).mission_cost_million_usd ≤
      1000 / 300 := by
    rw [div_le_div_iff₀ (by linarith) (by norm_num)]
    nlinarith
  have hm : (1 : ℝ) ≤ max (evaluate_strategy s missionC6).preparation_time_years 1 :=
    le_max_right _ _
  have h2 : 1 / max (evaluate_strategy s missionC6).preparation_time_years 1 ≤ 1 := by
    rw [div_le_one (by linarith)]
    exact hm
  nlinarith

/-- The laser-ablation entry scores above 18000 on the probe mission. -/
theorem c6_laser_score : 18000 < (entryC6 .laser_ablation).score := by
  have hpos : (0 : ℝ) < requiredC6 := by linarith [requiredC6_bounds.1]
  have hub : requiredC6 < 0.505 := requiredC6_bounds.2
  have hdv := c6_laser_dv
  have hfrac : (61386 : ℝ) <
      (evaluate_strategy .laser_ablation missionC6).delta_v_ms / requiredC6 := by
    rw [lt_div_iff₀ hpos]
    nlinarith
  rw [entryC6_score]
  have hprob : (evaluate_strategy .laser_ablation missionC6).success_probability = 0.65 :=
    rfl
  have hcost : (evaluate_strategy .laser_ablation missionC6).mission_cost_million_usd =
      2000 + 5 * 300 := rfl
  have hprep : (evaluate_strategy .laser_ablation missionC6).preparation_time_years = 8 :=
    rfl
  rw [hprob, hcost, hprep]
  have hmax : max (8 : ℝ) 1 = 8 := by norm_num
  rw [hmax]
  nlinarith

/-- The four non-laser entries all score below 18000 on the probe
mission. -/
theorem c6_other_scores :
    (entryC6 .kinetic_impactor).score < 18000 ∧
    (entryC6 .gravity_tractor).score < 18000 ∧
    (entryC6 .nuclear).score < 18000 ∧
    (entryC6 .ion_beam).score < 18000 := by
  have hpos : (0 : ℝ) < requiredC6 := by linarith [requiredC6_bounds.1]
  have hlb : 0.504 < requiredC6 := requiredC6_bounds.1
  refine ⟨?_, ?_, ?_, ?_⟩
  · have hfrac : (evaluate_strategy .kinetic_impactor missionC6).delta_v_ms /
        requiredC6 < 23 := by
      rw [div_lt_iff₀ hpos]
      nlinarith [c6_kinetic_dv.2]
    have h := entryC6_score_ub .kinetic_impactor 23 hfrac
      (by
        show (if (10:ℝ) < 100 then (0.95:ℝ) else if (10:ℝ) < 300 then 0.85
          else if (10:ℝ) < 500 then 0.70 else 0.50) ≤ 0.95
        rw [if_pos (by norm_num)])
      (by
        show (300 : ℝ) ≤ 300 + 10 / 10
        norm_num)
    linarith
  · have hfrac : (evaluate_strategy .gravity_tractor missionC6).delta_v_ms /
        requiredC6 < 1 := by
      rw [div_lt_iff₀ hpos]
      nlinarith [c6_gravity_dv.2]
    have h := entryC6_score_ub .gravity_tractor 1 hfrac
      (by
        show (if (10:ℝ) < 4 then (0.90:ℝ) else if (5:ℝ) < 4 then 0.75 else 0.50) ≤ 0.95
        rw [if_neg (by norm_num), if_neg (by norm_num)]
        norm_num)
      (by
        show (300 : ℝ) ≤ 1000 + 5 * 200
        norm_num)
    linarith
  · have hfrac : (evaluate_strategy .nuclear missionC6).delta_v_ms /
        requiredC6 < 57540 := by
      rw [div_lt_iff₀ hpos]
      nlinarith [c6_nuclear_dv.2]
    have h := entryC6_score_ub .nuclear 57540 hfrac
      (by
        show (if (10:ℝ) < 200 then (0.85:ℝ) else if (10:ℝ) < 500 then 0.75 else 0.65) ≤ 0.95
        rw [if_pos (by norm_num)]
        norm_num)
      (by
        show (300 : ℝ) ≤ 5000
        norm_num)
    linarith
  · have hfrac : (evaluate_strategy .ion_beam missionC6).delta_v_ms /
        requiredC6 < 102 := by
      rw [div_lt_iff₀ hpos]
      nlinarith [c6_ion_dv.2]
    have h := entryC6_score_ub .ion_beam 102 hfrac
      (by
        show (if (10:ℝ) < 4 then (0.85:ℝ) else 0.60) ≤ 0.95
        rw [if_neg (by norm_num)]
        norm_num)
      (by
        show (300 : ℝ) ≤ 1500 + 5 * 250
        norm_num)
    linarith

/-- The sorted rankings of the probe comparison start with the
laser-ablation entry: it has strictly the greatest score. -/
theorem c6_rankings_cons :
    ∃ t, (compare_with_required requiredC6 missionC6).rankings =
      entryC6 .laser_ablation :: t := by
  have hl : strategy_order.map
      (fun s => mk_rank_entry requiredC6 s (evaluate_strategy s missionC6)) =
      [entryC6 .kinetic_impactor, entryC6 .gravity_tractor, entryC6 .nuclear,
        entryC6 .laser_ablation, entryC6 .ion_beam] := rfl
  have hdef : (compare_with_required requiredC6 missionC6).rankings =
      List.insertionSort rank_rel (strategy_order.map
        (fun s => mk_rank_entry requiredC6 s (evaluate_strategy s missionC6))) := rfl
  rw [hdef, hl]
  apply insertionSort_cons_max
  · simp
  · intro y hy
    obtain ⟨h1, h2, h3, h4⟩ := c6_other_scores
    have hls := c6_laser_score
    simp only [List.mem_cons, List.not_mem_nil, or_false] at hy
    rcases hy with rfl | rfl | rfl | rfl | rfl
    · exact Or.inr (by linarith)
    · exact Or.inr (by linarith)
    · exact Or.inr (by linarith)
    · exact Or.inl rfl
    · exact Or.inr (by linarith)

/-- `generate_recommendations` with an empty sufficient list. -/
theorem gen_rec_nil (w : ℝ) (rk : List RankEntry)
    (h : rk.filter (fun e => e.sufficient) = []) :
    generate_recommendations w rk =
      { status := .INSUFFICIENT, primary_strategy := none,
        backup_strategies := [], cost_estimate_million_usd := none } := by
  unfold generate_recommendations
  rw [h]

/-- `generate_recommendations` with a non-empty sufficient list. -/
theorem gen_rec_cons (w : ℝ) (rk : List RankEntry) (b : RankEntry)
    (l : List RankEntry) (h : rk.filter (fun e => e.sufficient) = b :: l) :
    generate_recommendations w rk =
      if w < 5 then
        { status := .URGENT, primary_strategy := some b.strategy,
          backup_strategies := ((rk.drop 1).take 2).map (fun e => e.strategy),
          cost_estimate_million_usd := some b.data.mission_cost_million_usd }
      else if w < 15 then
        { status := .ADEQUATE, primary_strategy := some Strategy.kinetic_impactor,
          backup_strategies := [.ion_beam, .nuclear],
          cost_estimate_million_usd :=
            rk.head?.map (fun e => e.data.mission_cost_million_usd) }
      else
        { status := .OPTIMAL, primary_strategy := some Strategy.gravity_tractor,
          backup_strategies := [.ion_beam, .kinetic_impactor],
          cost_estimate_million_usd :=
            rk.head?.map (fun e => e.data.mission_cost_million_usd) } := by
  unfold generate_recommendations
  rw [h]

/-- The status is INSUFFICIENT exactly when no ranking entry is marked
sufficient. -/
theorem gen_rec_insufficient_iff (w : ℝ) (rk : List RankEntry) :
    (generate_recommendations w rk).status = .INSUFFICIENT ↔
      rk.filter (fun e => e.sufficient) = [] := by
  cases hc : rk.filter (fun e => e.sufficient) with
  | nil =>
      rw [gen_rec_nil w rk hc]
      simp
  | cons b l =>
      rw [gen_rec_cons w rk b l hc]
      constructor
      · intro hs
        exfalso
        split_ifs at hs
      · intro he
        exact absurd he (by simp)

/-- Every entry of a rankings list is marked sufficient exactly when its
effectiveness quotient is at least one. -/
theorem mem_rankings_sufficient (required_dv : ℝ) (m : Mission) :
    ∀ e ∈ (compare_with_required required_dv m).rankings,
      (e.sufficient = true ↔ 1 ≤ e.dv_over_required) := by
  intro e he
  have hperm := List.perm_insertionSort rank_rel
    (strategy_order.map (fun s => mk_rank_entry required_dv s (evaluate_strategy s m)))
  have he2 : e ∈ List.insertionSort rank_rel
      (strategy_order.map (fun s => mk_rank_entry required_dv s (evaluate_strategy s m))) :=
    he
  have hmem := hperm.mem_iff.mp he2
  obtain ⟨s, hs, rfl⟩ := List.mem_map.mp hmem
  simp [mk_rank_entry]

/-- C6 (counterexample): on the probe mission (4 years warning, 4 years
to impact) the top-ranked sufficient strategy is laser ablation, the
status is URGENT, and the recommended primary strategy is
`laser_ablation` — not `kinetic_impactor` as the claim prescribes when
the top sufficient strategy is not nuclear. -/
theorem c6_counterexample :
    calculate_required_deflection 4 = some requiredC6 ∧
    missionC6.warning_time_years < 5 ∧
    (compare_with_required requiredC6 missionC6).recommendations.status = .URGENT ∧
    (compare_with_required requiredC6 missionC6).recommendations.primary_strategy =
      some .laser_ablation := by
  have hpos : (0 : ℝ) < requiredC6 := by linarith [requiredC6_bounds.1]
  obtain ⟨t, ht⟩ := c6_rankings_cons
  have hsuff : (entryC6 .laser_ablation).sufficient = true := by
    simp only [entryC6, mk_rank_entry, decide_eq_true_eq]
    rw [if_pos hpos, le_div_iff₀ hpos]
    nlinarith [c6_laser_dv, requiredC6_bounds.2]
  have hfil : (compare_with_required requiredC6 missionC6).rankings.filter
      (fun e => e.sufficient) =
      entryC6 .laser_ablation :: t.filter (fun e => e.sufficient) := by
    rw [ht]
    exact List.filter_cons_of_pos hsuff
  have hrec : (compare_with_required requiredC6 missionC6).recommendations =
      generate_recommendations missionC6.warning_time_years
        (compare_with_required requiredC6 missionC6).rankings := rfl
  have hw : missionC6.warning_time_years < 5 := by
    show (4 : ℝ) < 5
    norm_num
  have hgen := gen_rec_cons missionC6.warning_time_years
    (compare_with_required requiredC6 missionC6).rankings _ _ hfil
  rw [if_pos hw] at hgen
  refine ⟨?_, hw, ?_, ?_⟩
  · unfold calculate_required_deflection requiredC6
    rw [if_neg (by norm_num : (4 : ℝ) ≠ 0)]
  · rw [hrec, hgen]
  · rw [hrec, hgen]
    rfl

/-- C6 (amended): the INSUFFICIENT-iff part of the claim and the
ADEQUATE/OPTIMAL branches hold as claimed; in the URGENT branch
(warning < 5 years) the primary strategy is the top-ranked sufficient
strategy, whatever it is — the nuclear-versus-kinetic distinction of the
source affects only the message text — with backups taken from the
second- and third-ranked entries overall. -/
theorem c6_amended (required_dv : ℝ) (m : Mission) :
    ((compare_with_required required_dv m).recommendations.status = .INSUFFICIENT ↔
      ∀ e ∈ (compare_with_required required_dv m).rankings,
        ¬ 1 ≤ e.dv_over_required) ∧
    ((compare_with_required required_dv m).recommendations.status ≠ .INSUFFICIENT →
      ((m.warning_time_years < 5 →
          (compare_with_required required_dv m).recommendations.status = .URGENT ∧
          (compare_with_required required_dv m).recommendations.primary_strategy =
            (((compare_with_required required_dv m).rankings.filter
              (fun e => e.sufficient)).head?).map (fun e => e.strategy) ∧
          (compare_with_required required_dv m).recommendations.backup_strategies =
            (((compare_with_required required_dv m).rankings.drop 1).take 2).map
              (fun e => e.strategy)) ∧
        (5 ≤ m.warning_time_years → m.warning_time_years < 15 →
          (compare_with_required required_dv m).recommendations.status = .ADEQUATE ∧
          (compare_with_required required_dv m).recommendations.primary_strategy =
            some .kinetic_impactor ∧
          (compare_with_required required_dv m).recommendations.backup_strategies =
            [.ion_beam, .nuclear]) ∧
        (15 ≤ m.warning_time_years →
          (compare_with_required required_dv m).recommendations.status = .OPTIMAL ∧
          (compare_with_required required_dv m).recommendations.primary_strategy =
            some .gravity_tractor ∧
          (compare_with_required required_dv m).recommendations.backup_strategies =
            [.ion_beam, .kinetic_impactor]))) := by
  have hrec : (compare_with_required required_dv m).recommendations =
      generate_recommendations m.warning_time_years
        (compare_with_required required_dv m).rankings := rfl
  constructor
  · rw [hrec, gen_rec_insufficient_iff, List.filter_eq_nil_iff]
    constructor
    · intro hall e he h1
      exact (hall e he) (((mem_rankings_sufficient required_dv m) e he).mpr h1)
    · intro hall e he hsuff
      exact (hall e he) (((mem_rankings_sufficient required_dv m) e he).mp hsuff)
  · intro hne
    have hfil : (compare_with_required required_dv m).rankings.filter
        (fun e => e.sufficient) ≠ [] := by
      intro h
      exact hne (by rw [hrec]; exact (gen_rec_insufficient_iff _ _).mpr h)
    obtain ⟨b, l, hbl⟩ : ∃ b l,
        (compare_with_required required_dv m).rankings.filter
          (fun e => e.sufficient) = b :: l := by
      cases hc : (compare_with_required required_dv m).rankings.filter
          (fun e => e.sufficient) with
      | nil => exact absurd hc hfil
      | cons b l => exact ⟨b, l, rfl⟩
    refine ⟨?_, ?_, ?_⟩
    · intro hw
      rw [hrec, gen_rec_cons _ _ b l hbl, if_pos hw]
      refine ⟨rfl, ?_, rfl⟩
      rw [hbl]
      rfl
    · intro hw1 hw2
      rw [hrec, gen_rec_cons _ _ b l hbl, if_neg (by linarith), if_pos hw2]
      exact ⟨rfl, rfl, rfl⟩
    · intro hw
      rw [hrec, gen_rec_cons _ _ b l hbl, if_neg (by linarith), if_neg (by linarith)]
      exact ⟨rfl, rfl, rfl⟩

/-- C6 witness: the amended theorem applied to the probe mission yields
the URGENT status. -/
theorem c6_amended_witness :
    (compare_with_required requiredC6 missionC6).recommendations.status = .URGENT := by
  have hpos : (0 : ℝ) < requiredC6 := by linarith [requiredC6_bounds.1]
  obtain ⟨hiff, hbr⟩ := c6_amended requiredC6 missionC6
  obtain ⟨t, ht⟩ := c6_rankings_cons
  have hfrac : 1 ≤ (entryC6 .laser_ablation).dv_over_required := by
    simp only [entryC6, mk_rank_entry]
    rw [if_pos hpos, le_div_iff₀ hpos]
    nlinarith [c6_laser_dv, requiredC6_bounds.2]
  have hne : (compare_with_required requiredC6 missionC6).recommendations.status ≠
      .INSUFFICIENT := by
    intro h
    have hmem : entryC6 .laser_ablation ∈
        (compare_with_required requiredC6 missionC6).rankings := by
      rw [ht]
      exact List.mem_cons_self _ _
    exact (hiff.mp h) _ hmem hfrac
  exact ((hbr hne).1 (by show (4 : ℝ) < 5; norm_num)).1

end

end NasaCore
